import Mathlib

/-!
Shallow embedding of the authentication core of the social-media backend
(files src/app/utils.py, src/app/services/auth_services.py,
src/app/auth_dependencies.py, src/app/exception_utils.py,
src/app/database/db.py).

Modelling conventions:
- Instants are Nat seconds of a single UTC clock; the nondeterministic
  clock reads and jti draws of the Python code become explicit parameters.
- A JWT string is modelled by TokenString: either a well-formed token
  signed with the server secret (constructor valid, carrying the payload
  that jwt.decode would return) or a string that jwt.decode rejects
  (constructor malformed: corrupt, tampered, or wrong secret).  Equality
  of TokenString values models byte equality of the strings; the JWT
  encoding of a payload is injective, and the payload carries the jti, so
  distinct mints yield distinct strings.
- PyJWT rejects a token whose exp claim satisfies exp <= now
  (ExpiredSignatureError); decode_token in utils.py catches this and
  returns None.
- A bcrypt digest is modelled by Digest: either a digest produced by
  hashing some password (constructor bcrypt; the salt is abstracted away,
  verification compares the hashed password) or a string that is not a
  recognizable bcrypt hash (constructor malformed).
- The Credential Store is a list of User rows; SQLAlchemy queries become
  List.find?, and a commit that rewrites one row becomes updateUser.
  Store operations are assumed to succeed, so the rollback-and-wrap-500
  branches for database failures are not reachable in the model.
- Python dicts that the code builds literally (the user claims of a
  token) are association lists, read with lookupKey; a missing key is a
  KeyError, which each service maps to whatever its generic except branch
  does.
-/

namespace App

/-- The decoded payload of a well-formed JWT, as built by
create_access_token in utils.py: the user claims dict, the exp instant,
the jti, and the refresh flag. -/
structure Token where
  user : List (String × String)
  exp : Nat
  jti : Nat
  refresh : Bool
deriving DecidableEq, Repr

/-- A string presented as a JWT: either well formed and correctly signed
(jwt.decode returns the payload) or rejected by jwt.decode. -/
inductive TokenString where
  | valid : Token → TokenString
  | malformed : String → TokenString
deriving DecidableEq, Repr

/-- A string stored as a password digest: either a genuine bcrypt digest
of some password or a malformed string that passlib cannot identify. -/
inductive Digest where
  | bcrypt : String → Digest
  | malformed : String → Digest
deriving DecidableEq, Repr

/-- One row of the user table (src/app/database/db.py): the
fastapi-users base columns used by the auth core plus username and the
refresh-token columns. -/
structure User where
  id : String
  email : String
  username : String
  hashed_password : Digest
  is_active : Bool
  is_superuser : Bool
  refresh_token : Option TokenString
  refresh_token_expires_at : Option Nat
deriving DecidableEq, Repr

/-- AppException of src/app/exception_utils.py (status code, detail,
machine-readable error code; the timestamp and headers play no role in
the claims). -/
structure AppException where
  status_code : Nat
  detail : String
  error_code : String
deriving DecidableEq, Repr

/-- Error codes of src/app/exception_utils.py. -/
def AUTH_EMAIL_OR_USERNAME_EXISTS : String := "AUTH_001"

def AUTH_INVALID_CREDENTIALS : String := "AUTH_002"

def AUTH_INVALID_TOKEN : String := "AUTH_003"

def AUTH_TOKEN_EXPIRED : String := "AUTH_004"

def AUTH_USER_NOT_FOUND_FOR_TOKEN : String := "AUTH_005"

/-- Note: exception_utils.py assigns AUTH_TOKEN_MISMATCH the same string
as AUTH_EMAIL_OR_USERNAME_EXISTS. -/
def AUTH_TOKEN_MISMATCH : String := "AUTH_001"

def INTERNAL_SERVER_ERROR : String := "SYS_500"

/-- utils.py: ACCESS_TOKEN_EXPIRY = 600 (seconds). -/
def ACCESS_TOKEN_EXPIRY : Nat := 600

/-- utils.py: REFRESH_TOKEN_EXPIRY = 7*24*3600 (seconds).  Unused by the
login flow, which shadows it with the constant of auth_services.py. -/
def REFRESH_TOKEN_EXPIRY : Nat := 7 * 24 * 3600

/-- auth_services.py line 27: REFRESH_TOKEN_EXPIRY = 2, consumed by login
as timedelta(days=REFRESH_TOKEN_EXPIRY). -/
def auth_services_REFRESH_TOKEN_EXPIRY : Nat := 2

/-- create_access_token of utils.py: payload user claims, exp = now plus
the requested duration (default ACCESS_TOKEN_EXPIRY seconds), a fresh
jti, and the refresh flag, signed with the server secret. -/
def create_access_token (user_data : List (String × String))
    (expiry : Option Nat) (refresh : Bool) (now jti : Nat) : Token :=
  { user := user_data
    exp := now + expiry.getD ACCESS_TOKEN_EXPIRY
    jti := jti
    refresh := refresh }

/-- decode_token of utils.py: jwt.decode with signature and expiry
verification; ExpiredSignatureError and InvalidTokenError are caught and
become None.  PyJWT raises ExpiredSignatureError when exp <= now. -/
def decode_token (token : TokenString) (now : Nat) : Option Token :=
  match token with
  | .malformed _ => none
  | .valid t => if t.exp ≤ now then none else some t

/-- Model of passlib CryptContext(schemes=["bcrypt"]).verify as called by
verify_password of utils.py: a recognizable bcrypt digest is checked
against the password; a string that is not a recognizable bcrypt hash
makes passlib raise UnknownHashError (a ValueError), which utils.py does
not catch. -/
def password_context_verify (password : String) (hash : Digest) :
    Except String Bool :=
  match hash with
  | .bcrypt hashed => .ok (password == hashed)
  | .malformed _ => .error "UnknownHashError"

/-- verify_password of utils.py: a bare delegation to
password_context.verify, with no exception handling. -/
def verify_password (password : String) (hash : Digest) :
    Except String Bool :=
  password_context_verify password hash

/-- generate_hash of utils.py: password_context.hash. -/
def generate_hash (password : String) : Digest :=
  .bcrypt password

/-- Python dict access d[k] on the literal user-claims dicts, as an
association-list lookup. -/
def lookupKey (l : List (String × String)) (k : String) : Option String :=
  (l.find? (fun p => p.1 == k)).map Prod.snd

/-- select(User).where(User.email == email) followed by scalars().first(). -/
def findByEmail (db : List User) (email : String) : Option User :=
  db.find? (fun u => u.email == email)

/-- select(User).where(User.id == user_id) followed by
scalar_one_or_none(), under the uniqueness of ids. -/
def findById (db : List User) (id : String) : Option User :=
  db.find? (fun u => u.id == id)

/-- session.add followed by commit of a modified row: rewrite the row
with that id. -/
def updateUser (db : List User) (id : String) (u : User) : List User :=
  db.map (fun v => if v.id == id then u else v)

/-- UserReadModel of src/app/database/schemas.py: the public identity
view returned by register and login. -/
structure UserReadModel where
  id : String
  email : String
  username : String
deriving DecidableEq, Repr

/-- The success body of login in auth_services.py. -/
structure LoginResponse where
  message : String
  access_token : Token
  refresh_token : Token
  user : UserReadModel
deriving DecidableEq, Repr

/-- An error escaping a service: either an AppException raised by the
service, or the passlib UnknownHashError that verify_password lets
propagate out of login uncaught. -/
inductive ServiceError where
  | app : AppException → ServiceError
  | unknownHash : ServiceError
deriving DecidableEq, Repr

/-- The InvalidCredentials exception raised by login (auth_services.py
lines 96-102). -/
def invalidCredentialsExc : AppException :=
  ⟨401, "Invalid email or password", AUTH_INVALID_CREDENTIALS⟩

/-- login of auth_services.py.  The clock reads and the two jti draws of
the token mints are the parameters now, jti1, jti2.  The user lookup and
the credential check run outside the try block, so a passlib
UnknownHashError propagates; inside the try block the two token mints
and the commit cannot fail in the model, so the except-500 branch is
unreachable.  The refresh token is minted by create_access_token with
refresh=True and expiry = timedelta(days=REFRESH_TOKEN_EXPIRY) where
REFRESH_TOKEN_EXPIRY is the local constant 2; the persisted expiry is
datetime.now() + timedelta(days=7). -/
def login (email password : String) (db : List User) (now jti1 jti2 : Nat) :
    Except ServiceError (LoginResponse × List User) :=
  match findByEmail db email with
  | none => .error (.app invalidCredentialsExc)
  | some user =>
    match verify_password password user.hashed_password with
    | .error _ => .error .unknownHash
    | .ok false => .error (.app invalidCredentialsExc)
    | .ok true =>
      let access_token := create_access_token
        [("email", user.email), ("user_id", user.id)] none false now jti1
      let refresh_token := create_access_token
        [("email", user.email), ("user_id", user.id)]
        (some (auth_services_REFRESH_TOKEN_EXPIRY * 24 * 3600)) true now jti2
      let user' := { user with
        refresh_token := some (.valid refresh_token)
        refresh_token_expires_at := some (now + 7 * 24 * 3600) }
      .ok ({ message := "Login Successful"
             access_token := access_token
             refresh_token := refresh_token
             user := ⟨user.id, user.email, user.username⟩ },
           updateUser db user.id user')

/-- The success body of refresh_access_token_service. -/
structure RefreshResponse where
  access_token : Token
  token_type : String
deriving DecidableEq, Repr

/-- An exception raised inside the try block of
refresh_access_token_service: one of the four 401 AppExceptions the code
constructs there, the KeyError from reading
token_data["user"]["user_id"], or the TypeError from comparing a None
stored expiry with a datetime. -/
inductive RefreshFailure where
  | appExc : AppException → RefreshFailure
  | keyError : RefreshFailure
  | typeError : RefreshFailure
deriving DecidableEq, Repr

/-- The try block of refresh_access_token_service (auth_services.py
lines 142-187), with each raise as the source writes it.  Steps in
source order: decode (None makes the code raise the 401 invalid-token
AppException); read token_data["user"]["user_id"] (KeyError if absent);
load the user by id (raise 401 user-not-found if absent); compare the
stored refresh_token string with the presented one (raise 401 mismatch
if different, also when the stored value is None); compare the stored
refresh_token_expires_at with the clock (a None stored expiry makes the
Python comparison raise TypeError; raise 401 token-expired if the
persisted instant has passed); on success mint a fresh access token with
claims email and user_uuid and expiry timedelta(minutes=15). -/
def refresh_access_token_try (refresh_token : TokenString)
    (db : List User) (now jti : Nat) :
    Except RefreshFailure RefreshResponse :=
  match decode_token refresh_token now with
  | none => .error (.appExc ⟨401, "Invalid token", AUTH_INVALID_TOKEN⟩)
  | some token_data =>
    match lookupKey token_data.user "user_id" with
    | none => .error .keyError
    | some user_id =>
      match findById db user_id with
      | none =>
        .error (.appExc ⟨401, "User not found", AUTH_USER_NOT_FOUND_FOR_TOKEN⟩)
      | some user =>
        if user.refresh_token ≠ some refresh_token then
          .error (.appExc ⟨401, "Refresh token mismatch", AUTH_TOKEN_MISMATCH⟩)
        else
          match user.refresh_token_expires_at with
          | none => .error .typeError
          | some expires_at =>
            if expires_at < now then
              .error (.appExc ⟨401, "Refresh token expired", AUTH_TOKEN_EXPIRED⟩)
            else
              .ok { access_token := create_access_token
                      [("email", user.email), ("user_uuid", user.id)]
                      (some (15 * 60)) false now jti
                    token_type := "bearer" }

/-- refresh_access_token_service of auth_services.py: the try block
under its exception handlers.  The except jwt.ExpiredSignatureError and
except jwt.InvalidTokenError clauses are dead, because decode_token
already catches those internally; the remaining handler is the bare
except Exception of line 201, which has no re-raise clause for
HTTPException (unlike auth_dependencies.py) and so also catches the four
401 AppExceptions raised inside the try block (AppException subclasses
HTTPException subclasses Exception), logs, and raises
AppException(500, "Failed to refresh token", SYS_500).  Hence every
failure of refresh surfaces as that one 500.  No session.add or commit
occurs on any path, so the store is returned unchanged. -/
def refresh_access_token_service (refresh_token : TokenString)
    (db : List User) (now jti : Nat) :
    Except ServiceError RefreshResponse × List User :=
  match refresh_access_token_try refresh_token db now jti with
  | .ok resp => (.ok resp, db)
  | .error _ =>
    (.error (.app ⟨500, "Failed to refresh token", INTERNAL_SERVER_ERROR⟩), db)

/-- A bare HTTPException as raised by src/app/auth_dependencies.py
(status code and detail only). -/
structure HTTPExc where
  status_code : Nat
  detail : String
deriving DecidableEq, Repr

/-- current_active_user of src/app/auth_dependencies.py: decode the
bearer token (None becomes 401 invalid-token); read
token_data["user"]["user_id"] (a KeyError falls into the generic except
branch, a 401 invalid-credentials); load the user by id (401 if absent);
reject inactive users with 403; otherwise return the user.  The refresh
flag of the payload is never inspected. -/
def current_active_user (token : TokenString) (db : List User) (now : Nat) :
    Except HTTPExc User :=
  match decode_token token now with
  | none => .error ⟨401, "Invalid token"⟩
  | some token_data =>
    match lookupKey token_data.user "user_id" with
    | none => .error ⟨401, "Invalid credentials"⟩
    | some user_id =>
      match findById db user_id with
      | none => .error ⟨401, "User not found"⟩
      | some user =>
        if user.is_active = false then
          .error ⟨403, "User account is inactive"⟩
        else
          .ok user

/-- The success body of the modelled logout. -/
structure LogoutResponse where
  message : String
deriving DecidableEq, Repr

/-- Modelled from the spec: no logout operation exists anywhere under
src/ (the auth router defines only register, login and refresh, and no
service or router mentions logout), so this follows the words of the
spec: logout(identity) clears refresh_token and its expiry to null,
succeeds silently, and is idempotent. -/
def logout (identity : User) : LogoutResponse × User :=
  (⟨"Logout successful"⟩,
   { identity with refresh_token := none, refresh_token_expires_at := none })

/-! Concrete fixtures: one registered user, the outcome of a login at
instant 0 with jti draws 1 and 2, and the access token a refresh at
instant 100 with jti draw 3 mints. -/

/-- A registered user with no live session. -/
def alice : User :=
  ⟨"u1", "a@x.com", "alice", .bcrypt "Str0ng!Pass1", true, false, none, none⟩

def aliceDb : List User := [alice]

/-- The access token minted by login at instant 0 with jti 1. -/
def loginAccessTok : Token :=
  ⟨[("email", "a@x.com"), ("user_id", "u1")], 600, 1, false⟩

/-- The refresh token minted by login at instant 0 with jti 2: embedded
expiry 2 days = 172800 seconds. -/
def loginRefreshTok : Token :=
  ⟨[("email", "a@x.com"), ("user_id", "u1")], 172800, 2, true⟩

/-- The user row after that login: stored token string and a persisted
expiry of 7 days = 604800 seconds. -/
def aliceLoggedIn : User :=
  { alice with
    refresh_token := some (.valid loginRefreshTok)
    refresh_token_expires_at := some 604800 }

def aliceLoggedInDb : List User := [aliceLoggedIn]

/-- The login response of that login. -/
def loginResp : LoginResponse :=
  ⟨"Login Successful", loginAccessTok, loginRefreshTok, ⟨"u1", "a@x.com", "alice"⟩⟩

/-- The access token minted by a refresh at instant 100 with jti 3:
claims keyed email and user_uuid, expiry 15 minutes. -/
def refreshedAccessTok : Token :=
  ⟨[("email", "a@x.com"), ("user_uuid", "u1")], 1000, 3, false⟩

/-! Theorems. -/

/-- Claim C1, counterexample: a token that decodes successfully with
refresh = false, presented to refresh against a logged-in user whose
stored refresh token differs, does not make the service fail with the
InvalidToken exception: the refresh flag is never inspected, the try
block raises the TokenMismatch 401, and the bare except Exception
rewraps it so the surfaced failure is the 500 internal error. -/
theorem C1_counterexample :
    decode_token (.valid loginAccessTok) 0 = some loginAccessTok
    ∧ loginAccessTok.refresh = false
    ∧ refresh_access_token_try (.valid loginAccessTok) aliceLoggedInDb 0 5
        = .error (.appExc ⟨401, "Refresh token mismatch", AUTH_TOKEN_MISMATCH⟩)
    ∧ (refresh_access_token_service (.valid loginAccessTok) aliceLoggedInDb 0 5).1
        = .error (.app ⟨500, "Failed to refresh token", INTERNAL_SERVER_ERROR⟩)
    ∧ (AppException.mk 500 "Failed to refresh token" INTERNAL_SERVER_ERROR)
        ≠ ⟨401, "Invalid token", AUTH_INVALID_TOKEN⟩ :=
  ⟨rfl, rfl, rfl, rfl, by decide⟩

/-- Claim C1, amended: whenever decoding the presented token fails, the
try block raises the 401 InvalidToken AppException, but the bare except
Exception catches it and the operation surfaces the generic 500
internal error instead; the refresh flag of a successfully decoded
token is never checked, so a decoded non-refresh token proceeds to the
user and stored-token checks. -/
theorem C1_decode_failure_rewrapped_to_500
    (tok : TokenString) (db : List User) (now jti : Nat)
    (h : decode_token tok now = none) :
    refresh_access_token_try tok db now jti
      = .error (.appExc ⟨401, "Invalid token", AUTH_INVALID_TOKEN⟩)
    ∧ (refresh_access_token_service tok db now jti).1
      = .error (.app ⟨500, "Failed to refresh token", INTERNAL_SERVER_ERROR⟩) := by
  have hbody : refresh_access_token_try tok db now jti
      = .error (.appExc ⟨401, "Invalid token", AUTH_INVALID_TOKEN⟩) := by
    simp [refresh_access_token_try, h]
  exact ⟨hbody, by simp [refresh_access_token_service, hbody]⟩

/-- Witness for C1: a malformed token string makes the try block raise
the InvalidToken 401 and the service surface the 500. -/
theorem C1_witness :
    refresh_access_token_try (.malformed "garbage") aliceDb 0 0
      = .error (.appExc ⟨401, "Invalid token", AUTH_INVALID_TOKEN⟩)
    ∧ (refresh_access_token_service (.malformed "garbage") aliceDb 0 0).1
      = .error (.app ⟨500, "Failed to refresh token", INTERNAL_SERVER_ERROR⟩) :=
  C1_decode_failure_rewrapped_to_500 (.malformed "garbage") aliceDb 0 0 rfl

/-- Claim C2: after a successful login, refresh with the returned
refresh token succeeds, but the new access token carries the identity id
under the claim key user_uuid while the access token minted at login
carries it under user_id (emails agree); consequently the request
authenticator, which reads user_id, rejects the refreshed access token. -/
theorem C2_refresh_mints_wrong_claim_key :
    login "a@x.com" "Str0ng!Pass1" aliceDb 0 1 2 = .ok (loginResp, aliceLoggedInDb)
    ∧ (refresh_access_token_service (.valid loginRefreshTok) aliceLoggedInDb 100 3).1
        = .ok { access_token := refreshedAccessTok, token_type := "bearer" }
    ∧ lookupKey loginAccessTok.user "user_id" = some "u1"
    ∧ lookupKey refreshedAccessTok.user "user_id" = none
    ∧ lookupKey refreshedAccessTok.user "user_uuid" = some "u1"
    ∧ lookupKey refreshedAccessTok.user "email" = lookupKey loginAccessTok.user "email"
    ∧ current_active_user (.valid refreshedAccessTok) aliceLoggedInDb 100
        = .error ⟨401, "Invalid credentials"⟩ :=
  ⟨rfl, rfl, rfl, rfl, rfl, rfl, rfl⟩

/-- Claim C3: login answers an unknown email and a wrong password with
the one InvalidCredentials exception — same status code 401, same detail
text, same error code AUTH_002 — so the two cases are indistinguishable
to the caller. -/
theorem C3_invalid_credentials_indistinguishable
    (db : List User) (email password : String) (now jti1 jti2 : Nat) :
    (findByEmail db email = none →
      login email password db now jti1 jti2 = .error (.app invalidCredentialsExc))
    ∧ (∀ u, findByEmail db email = some u →
        verify_password password u.hashed_password = .ok false →
        login email password db now jti1 jti2 = .error (.app invalidCredentialsExc))
    ∧ invalidCredentialsExc = ⟨401, "Invalid email or password", "AUTH_002"⟩ := by
  refine ⟨?_, ?_, rfl⟩
  · intro h
    simp [login, h]
  · intro u hu hv
    simp [login, hu, hv]

/-- Witness for C3: with only alice registered, login with an unknown
email and login with a wrong password for alice yield the same
exception. -/
theorem C3_witness :
    login "nobody@x.com" "pw" aliceDb 0 1 2 = .error (.app invalidCredentialsExc)
    ∧ login "a@x.com" "wrongpw" aliceDb 0 1 2 = .error (.app invalidCredentialsExc) :=
  ⟨(C3_invalid_credentials_indistinguishable aliceDb "nobody@x.com" "pw" 0 1 2).1 rfl,
   (C3_invalid_credentials_indistinguishable aliceDb "a@x.com" "wrongpw" 0 1 2).2.1
     alice rfl rfl⟩

/-- A stored refresh token whose embedded expiry 100 and persisted
expiry 200 have both passed at instant 300. -/
def c4Tok : Token := ⟨[("email", "a@x.com"), ("user_id", "u1")], 100, 7, true⟩

def c4User : User :=
  { alice with
    refresh_token := some (.valid c4Tok)
    refresh_token_expires_at := some 200 }

/-- Claim C4, counterexample: the presented token byte-equals the stored
refresh_token and the persisted expiry (200) has passed at instant 300,
yet the call does not fail with TokenExpired: the embedded expiry (100)
has also passed, so decode fails first and the try block raises the
InvalidToken 401, which the bare except Exception rewraps to the 500
internal error — the outcome is not decided by the persisted expiry
alone, and TokenExpired is never the surfaced error. -/
theorem C4_counterexample :
    c4User.refresh_token = some (.valid c4Tok)
    ∧ c4User.refresh_token_expires_at = some 200
    ∧ 200 < 300
    ∧ refresh_access_token_try (.valid c4Tok) [c4User] 300 8
        = .error (.appExc ⟨401, "Invalid token", AUTH_INVALID_TOKEN⟩)
    ∧ (refresh_access_token_service (.valid c4Tok) [c4User] 300 8).1
        = .error (.app ⟨500, "Failed to refresh token", INTERNAL_SERVER_ERROR⟩)
    ∧ (AppException.mk 500 "Failed to refresh token" INTERNAL_SERVER_ERROR)
        ≠ ⟨401, "Refresh token expired", AUTH_TOKEN_EXPIRED⟩ :=
  ⟨rfl, rfl, by decide, rfl, rfl, by decide⟩

/-- Claim C4, amended: when the presented token still decodes (its
embedded expiry has not passed), byte-equals the stored refresh_token,
and the persisted expiry has passed, the try block raises the 401
TokenExpired AppException at the persisted-expiry check — but the bare
except Exception catches it and the call surfaces the generic 500
internal error. -/
theorem C4_persisted_expiry_rewrapped_to_500
    (db : List User) (tok : TokenString) (t : Token) (now jti : Nat)
    (uid : String) (u : User) (e : Nat)
    (hdec : decode_token tok now = some t)
    (hid : lookupKey t.user "user_id" = some uid)
    (hu : findById db uid = some u)
    (hstore : u.refresh_token = some tok)
    (hexp : u.refresh_token_expires_at = some e)
    (hpast : e < now) :
    refresh_access_token_try tok db now jti
      = .error (.appExc ⟨401, "Refresh token expired", AUTH_TOKEN_EXPIRED⟩)
    ∧ (refresh_access_token_service tok db now jti).1
      = .error (.app ⟨500, "Failed to refresh token", INTERNAL_SERVER_ERROR⟩) := by
  have hbody : refresh_access_token_try tok db now jti
      = .error (.appExc ⟨401, "Refresh token expired", AUTH_TOKEN_EXPIRED⟩) := by
    simp [refresh_access_token_try, hdec, hid, hu, hstore, hexp, hpast]
  exact ⟨hbody, by simp [refresh_access_token_service, hbody]⟩

/-- A stored refresh token whose embedded expiry 1000 has not passed at
instant 500 while its persisted expiry 300 has. -/
def c4wTok : Token := ⟨[("email", "a@x.com"), ("user_id", "u1")], 1000, 9, true⟩

def c4wUser : User :=
  { alice with
    refresh_token := some (.valid c4wTok)
    refresh_token_expires_at := some 300 }

/-- Witness for C4: the amended statement at the concrete state. -/
theorem C4_witness :
    refresh_access_token_try (.valid c4wTok) [c4wUser] 500 10
      = .error (.appExc ⟨401, "Refresh token expired", AUTH_TOKEN_EXPIRED⟩)
    ∧ (refresh_access_token_service (.valid c4wTok) [c4wUser] 500 10).1
      = .error (.app ⟨500, "Failed to refresh token", INTERNAL_SERVER_ERROR⟩) :=
  C4_persisted_expiry_rewrapped_to_500 [c4wUser] (.valid c4wTok) c4wTok 500 10
    "u1" c4wUser 300 rfl rfl rfl rfl rfl (by decide)

/-- Claim C5: logout clears refresh_token and refresh_token_expires_at
to none, and it is idempotent: a second logout returns the same success
response and leaves the state fixed. -/
theorem C5_logout_idempotent (identity : User) :
    ((logout identity).2.refresh_token = none
      ∧ (logout identity).2.refresh_token_expires_at = none)
    ∧ logout ((logout identity).2) = ((logout identity).1, (logout identity).2) :=
  ⟨⟨rfl, rfl⟩, rfl⟩

/-- Claim C6: every access token minted by a successful login carries an
embedded expiry 600 seconds after the mint instant, but every refresh
token minted by login carries an embedded expiry 2 days after the mint
instant, not the 7 days the spec states (the persisted expiry is 7
days). -/
theorem C6_token_lifetimes (email password : String) (db : List User)
    (now jti1 jti2 : Nat) (resp : LoginResponse) (db' : List User)
    (h : login email password db now jti1 jti2 = .ok (resp, db')) :
    resp.access_token.exp = now + 600
    ∧ resp.refresh_token.exp = now + 2 * 24 * 3600
    ∧ resp.refresh_token.exp ≠ now + 7 * 24 * 3600 := by
  unfold login at h
  cases hf : findByEmail db email with
  | none => simp [hf] at h
  | some u =>
    simp only [hf] at h
    cases hv : verify_password password u.hashed_password with
    | error e => simp [hv] at h
    | ok b =>
      simp only [hv] at h
      cases b with
      | false => simp at h
      | true =>
        simp only [Except.ok.injEq, Prod.mk.injEq] at h
        obtain ⟨hresp, -⟩ := h
        subst hresp
        refine ⟨rfl, rfl, ?_⟩
        simp only [create_access_token, Option.getD_some,
          auth_services_REFRESH_TOKEN_EXPIRY]
        omega

/-- Witness for C6: the fixture login at instant 0. -/
theorem C6_witness :
    loginResp.access_token.exp = 0 + 600
    ∧ loginResp.refresh_token.exp = 0 + 2 * 24 * 3600
    ∧ loginResp.refresh_token.exp ≠ 0 + 7 * 24 * 3600 :=
  C6_token_lifetimes "a@x.com" "Str0ng!Pass1" aliceDb 0 1 2 loginResp
    aliceLoggedInDb rfl

/-- Claim C7: decoding the token produced by encoding claims with
duration d and refresh = false returns the original claims under the
user key, at any instant strictly before the encoding instant plus d. -/
theorem C7_encode_decode_roundtrip (user_data : List (String × String))
    (d now now' jti : Nat) (h : now' < now + d) :
    decode_token (.valid (create_access_token user_data (some d) false now jti)) now'
      = some (create_access_token user_data (some d) false now jti)
    ∧ (create_access_token user_data (some d) false now jti).user = user_data := by
  refine ⟨?_, rfl⟩
  have hlt : ¬ ((create_access_token user_data (some d) false now jti).exp ≤ now') := by
    simp only [create_access_token, Option.getD_some]
    omega
  simp [decode_token, hlt]

/-- Witness for C7: claims under key k, duration 10, decoded 5 seconds
after encoding. -/
theorem C7_witness :
    decode_token (.valid (create_access_token [("k", "v")] (some 10) false 0 1)) 5
      = some (create_access_token [("k", "v")] (some 10) false 0 1)
    ∧ (create_access_token [("k", "v")] (some 10) false 0 1).user = [("k", "v")] :=
  C7_encode_decode_roundtrip [("k", "v")] 10 0 5 1 (by decide)

/-- Claim C8: refresh returns the store unchanged on every path, and a
successful refresh returns only a bearer response holding one
short-lived (15 minutes) non-refresh access token. -/
theorem C8_refresh_no_store_mutation (tok : TokenString) (db : List User)
    (now jti : Nat) :
    (refresh_access_token_service tok db now jti).2 = db
    ∧ ∀ resp, (refresh_access_token_service tok db now jti).1 = .ok resp →
        resp.token_type = "bearer" ∧ resp.access_token.refresh = false
          ∧ resp.access_token.exp = now + 15 * 60 := by
  constructor
  · unfold refresh_access_token_service
    split
    · rfl
    · rfl
  · intro resp h
    unfold refresh_access_token_service at h
    cases heq : refresh_access_token_try tok db now jti with
    | error e =>
      rw [heq] at h
      simp at h
    | ok r =>
      rw [heq] at h
      simp at h
      subst h
      unfold refresh_access_token_try at heq
      repeat' split at heq
      all_goals simp_all [create_access_token]
      subst heq
      exact ⟨rfl, rfl, rfl⟩

/-- Witness for C8: the fixture refresh at instant 100. -/
theorem C8_witness :
    (refresh_access_token_service (.valid loginRefreshTok) aliceLoggedInDb 100 3).2
      = aliceLoggedInDb
    ∧ ((RefreshResponse.mk refreshedAccessTok "bearer").token_type = "bearer"
      ∧ (RefreshResponse.mk refreshedAccessTok "bearer").access_token.refresh = false
      ∧ (RefreshResponse.mk refreshedAccessTok "bearer").access_token.exp
          = 100 + 15 * 60) :=
  ⟨(C8_refresh_no_store_mutation (.valid loginRefreshTok) aliceLoggedInDb 100 3).1,
   (C8_refresh_no_store_mutation (.valid loginRefreshTok) aliceLoggedInDb 100 3).2
     ⟨refreshedAccessTok, "bearer"⟩ rfl⟩

/-- Claim C9, counterexample: on a digest that is not a recognizable
bcrypt hash, verify_password propagates the passlib UnknownHashError: it
does not return false (nor true). -/
theorem C9_counterexample :
    verify_password "password123" (.malformed "not-a-bcrypt-hash")
      = .error "UnknownHashError"
    ∧ verify_password "password123" (.malformed "not-a-bcrypt-hash") ≠ .ok false
    ∧ verify_password "password123" (.malformed "not-a-bcrypt-hash") ≠ .ok true :=
  ⟨rfl, by simp [verify_password, password_context_verify],
    by simp [verify_password, password_context_verify]⟩

/-- Claim C9, amended: verify returns a boolean verdict for every
recognizable bcrypt digest, and raises UnknownHashError (propagated
uncaught by verify_password) for every malformed digest. -/
theorem C9_verify_raises_on_malformed (password s hashed : String) :
    verify_password password (.malformed s) = .error "UnknownHashError"
    ∧ verify_password password (.bcrypt hashed) = .ok (password == hashed) :=
  ⟨rfl, rfl⟩

/-- Claim C10: whenever the bearer token decodes, its user claims hold a
user_id naming an existing active user, the request authenticator
returns that user; the refresh flag of the token is never inspected, so
this holds for refresh tokens as well. -/
theorem C10_authenticator_ignores_refresh_flag
    (token : TokenString) (t : Token) (db : List User) (now : Nat)
    (uid : String) (u : User)
    (hdec : decode_token token now = some t)
    (hid : lookupKey t.user "user_id" = some uid)
    (hu : findById db uid = some u)
    (hact : u.is_active = true) :
    current_active_user token db now = .ok u := by
  simp [current_active_user, hdec, hid, hu, hact]

/-- Witness for C10: the refresh token minted by the fixture login, a
token with refresh = true, is accepted by the authenticator. -/
theorem C10_witness :
    current_active_user (.valid loginRefreshTok) aliceLoggedInDb 100
      = .ok aliceLoggedIn
    ∧ loginRefreshTok.refresh = true :=
  ⟨C10_authenticator_ignores_refresh_flag (.valid loginRefreshTok) loginRefreshTok
      aliceLoggedInDb 100 "u1" aliceLoggedIn rfl rfl rfl rfl, rfl⟩

end App
